import Mathlib

/-!
Shallow embedding of the WDC Labs AI orchestrator core
(src/app/orchestrator.py, src/app/agents/sola.py, src/app/agents/kemi.py,
src/app/intent_classifier.py, src/app/schemas.py).

Python strings are modelled as Lean `String`, Python dicts produced by
`json.loads` as association lists `List (String × Json)` preserving
insertion order, and the external model service as the outcome of its
single call: `Except String String` (an exception message, or the
response text). Python exceptions that escape a function are modelled
with `Except PyErr`.
-/

namespace WDC

/-- The open-brace character, kept as a named escape. -/
def lbrace : Char := '\x7b'

/-- The close-brace character, kept as a named escape. -/
def rbrace : Char := '\x7d'

-- ---------------------------------------------------------------------
-- Python string primitives used by the source
-- ---------------------------------------------------------------------

/-- Python `str.lower()` restricted to ASCII letters (all keyword
vocabularies and routing tokens in the source are ASCII). -/
def pyLower (s : String) : String := ⟨s.toList.map Char.toLower⟩

/-- Characters stripped by Python `str.strip()` with no argument. -/
def pySpace (c : Char) : Bool :=
  c = ' ' || c = '\t' || c = '\n' || c = '\r' || c = '\x0b' || c = '\x0c'

/-- Python `str.strip()`: remove leading and trailing whitespace. -/
def pyStrip (s : String) : String :=
  ⟨((s.toList.dropWhile pySpace).reverse.dropWhile pySpace).reverse⟩

/-- Helper for `pyTitle`: the Bool records whether the previous
character was alphabetic (cased). -/
def pyTitleGo : Bool → List Char → List Char
  | _, [] => []
  | prevAlpha, c :: cs =>
    if c.isAlpha then
      (if prevAlpha then c.toLower else c.toUpper) :: pyTitleGo true cs
    else
      c :: pyTitleGo false cs

/-- Python `str.title()` restricted to ASCII: uppercase each letter that
follows a non-letter, lowercase the rest. -/
def pyTitle (s : String) : String := ⟨pyTitleGo false s.toList⟩

/-- `startsList n h`: the list `n` is an initial segment of `h`. -/
def startsList : List Char → List Char → Bool
  | [], _ => true
  | _ :: _, [] => false
  | a :: as, b :: bs => a = b && startsList as bs

/-- `hasSub n h`: `n` occurs as a contiguous sublist of `h`
(Python `n in h` on strings). -/
def hasSub (n : List Char) : List Char → Bool
  | [] => n.isEmpty
  | c :: cs => startsList n (c :: cs) || hasSub n cs

/-- Python substring test `needle in hay`. -/
def strIn (needle hay : String) : Bool := hasSub needle.toList hay.toList

/-- Python `s.startswith(p)`. -/
def strStarts (p s : String) : Bool := startsList p.toList s.toList

/-- Python `s.endswith(p)`. -/
def strEnds (p s : String) : Bool :=
  startsList p.toList.reverse s.toList.reverse

/-- Python `s[n:]`. -/
def strDrop (s : String) (n : Nat) : String := ⟨s.toList.drop n⟩

/-- Python `s[:-n]` for `0 < n ≤ len(s)`. -/
def strDropRight (s : String) (n : Nat) : String :=
  ⟨(s.toList.reverse.drop n).reverse⟩

/-- Helper for `splitOnChar`: `acc` holds the current piece reversed. -/
def splitOnCharAux (c : Char) (acc : List Char) :
    List Char → List (List Char)
  | [] => [acc.reverse]
  | x :: xs =>
    if x = c then acc.reverse :: splitOnCharAux c [] xs
    else splitOnCharAux c (x :: acc) xs

/-- Python `s.split(c)` for a single-character separator. -/
def splitOnChar (c : Char) (s : String) : List String :=
  (splitOnCharAux c [] s.toList).map (fun l => ⟨l⟩)

/-- Python `sep.join(pieces)` for a single-character separator. -/
def joinWithChar (c : Char) : List String → String
  | [] => ""
  | [x] => x
  | x :: xs => x ++ ⟨[c]⟩ ++ joinWithChar c xs

/-- Number of positions of `hay` at which `needle` matches (used only to
state the spec's occurrence-counting reading of the fallback scorer). -/
def occCount (n : List Char) : List Char → Nat
  | [] => if n.isEmpty then 1 else 0
  | c :: cs => (if startsList n (c :: cs) then 1 else 0) + occCount n cs

-- ---------------------------------------------------------------------
-- JSON values and `json.loads` (src code calls Python's json module)
-- ---------------------------------------------------------------------

/-- JSON values as returned by Python `json.loads`. Numbers keep the
flag `isInt` (Python returns `int` when the literal has no fraction and
no exponent, `float` otherwise) and denote `m * 10 ^ e`. `nan` and
`inf` model the nonstandard constants `NaN` / `Infinity` that Python's
decoder accepts by default. -/
inductive Json where
  | null
  | bool (b : Bool)
  | num (isInt : Bool) (m : Int) (e : Int)
  | nan
  | inf (neg : Bool)
  | str (s : String)
  | arr (elems : List Json)
  | obj (fields : List (String × Json))
deriving Repr

/-- JSON whitespace accepted between tokens by Python's decoder. -/
def jWs (c : Char) : Bool := c = ' ' || c = '\t' || c = '\n' || c = '\r'

/-- Skip JSON whitespace. -/
def skipWs (cs : List Char) : List Char := cs.dropWhile jWs

/-- Hexadecimal digit value. -/
def hexVal (c : Char) : Option Nat :=
  if '0' ≤ c ∧ c ≤ '9' then some (c.toNat - '0'.toNat)
  else if 'a' ≤ c ∧ c ≤ 'f' then some (c.toNat - 'a'.toNat + 10)
  else if 'A' ≤ c ∧ c ≤ 'F' then some (c.toNat - 'A'.toNat + 10)
  else none

/-- Read exactly four hex digits. -/
def read4Hex : List Char → Option (Nat × List Char)
  | a :: b :: c :: d :: rest => do
    let va ← hexVal a
    let vb ← hexVal b
    let vc ← hexVal c
    let vd ← hexVal d
    pure (((va * 16 + vb) * 16 + vc) * 16 + vd, rest)
  | _ => none

/-- Decode the body of a JSON string literal (opening quote already
consumed), handling the escape sequences Python's strict decoder
accepts and rejecting raw control characters. A `\uXXXX` high
surrogate must be followed by a low surrogate (Lean `Char` cannot hold
lone surrogates, which Python tolerates; no claim depends on them). -/
def jString : Nat → List Char → Option (String × List Char)
  | 0, _ => none
  | _, [] => none
  | fuel + 1, c :: cs =>
    if c = '"' then some ("", cs)
    else if c = '\\' then
      match cs with
      | [] => none
      | e :: cs' =>
        let simple : Option Char :=
          if e = '"' then some '"'
          else if e = '\\' then some '\\'
          else if e = '/' then some '/'
          else if e = 'b' then some '\x08'
          else if e = 'f' then some '\x0c'
          else if e = 'n' then some '\n'
          else if e = 'r' then some '\r'
          else if e = 't' then some '\t'
          else none
        match simple with
        | some ch => do
          let (rest, tail) ← jString fuel cs'
          pure (⟨ch :: rest.toList⟩, tail)
        | none =>
          if e = 'u' then do
            let (n, cs₂) ← read4Hex cs'
            if 0xD800 ≤ n ∧ n ≤ 0xDBFF then
              match cs₂ with
              | '\\' :: 'u' :: cs₃ => do
                let (n₂, cs₄) ← read4Hex cs₃
                if 0xDC00 ≤ n₂ ∧ n₂ ≤ 0xDFFF then do
                  let cp := 0x10000 + (n - 0xD800) * 0x400 + (n₂ - 0xDC00)
                  let (rest, tail) ← jString fuel cs₄
                  pure (⟨Char.ofNat cp :: rest.toList⟩, tail)
                else none
              | _ => none
            else if 0xDC00 ≤ n ∧ n ≤ 0xDFFF then none
            else do
              let (rest, tail) ← jString fuel cs₂
              pure (⟨Char.ofNat n :: rest.toList⟩, tail)
          else none
    else if c.toNat < 0x20 then none
    else do
      let (rest, tail) ← jString fuel cs
      pure (⟨c :: rest.toList⟩, tail)

/-- Digit test. -/
def isDigit (c : Char) : Bool := '0' ≤ c && c ≤ '9'

/-- Fold a digit run into an accumulator. -/
def digitsVal (acc : Nat) : List Char → Nat
  | [] => acc
  | c :: cs => digitsVal (acc * 10 + (c.toNat - '0'.toNat)) cs

/-- Parse the integer part of a JSON number after the sign: `0` alone
or a nonzero digit followed by digits (leading zeros are rejected, as
in Python's decoder). Returns the digit list and the rest. -/
def jIntDigits : List Char → Option (List Char × List Char)
  | [] => none
  | c :: cs =>
    if c = '0' then some ([c], cs)
    else if isDigit c ∧ c ≠ '0' then
      some (([c] ++ cs.takeWhile isDigit), cs.dropWhile isDigit)
    else none

/-- Parse a JSON number starting at `cs` (first char is `-` or a
digit). Yields `Json.num isInt m e` with value `m * 10 ^ e`. -/
def jNumber (cs : List Char) : Option (Json × List Char) :=
  let (neg, cs₀) := match cs with
    | '-' :: rest => (true, rest)
    | rest => (false, rest)
  match jIntDigits cs₀ with
  | none => none
  | some (intDs, cs₁) =>
    let fracStep : Option (List Char × List Char) :=
      match cs₁ with
      | '.' :: rest =>
        let ds := rest.takeWhile isDigit
        if ds.isEmpty then none else some (ds, rest.dropWhile isDigit)
      | _ => some ([], cs₁)
    match fracStep with
    | none => none
    | some (fracDs, cs₂) =>
      let expStep : Option (List Char × Bool × List Char) :=
        match cs₂ with
        | c :: rest =>
          if c = 'e' ∨ c = 'E' then
            let (eneg, rest₂) := match rest with
              | '-' :: r => (true, r)
              | '+' :: r => (false, r)
              | r => (false, r)
            let ds := rest₂.takeWhile isDigit
            if ds.isEmpty then none
            else some (ds, eneg, rest₂.dropWhile isDigit)
          else some ([], false, cs₂)
        | [] => some ([], false, cs₂)
      match expStep with
      | none => none
      | some (expDigits, expNeg, cs₃) =>
        let isInt := fracDs.isEmpty && expDigits.isEmpty
        let mNat := digitsVal (digitsVal 0 intDs) fracDs
        let m : Int := if neg then -(mNat : Int) else (mNat : Int)
        let expVal : Int := if expNeg then -(digitsVal 0 expDigits : Int)
                            else (digitsVal 0 expDigits : Int)
        let e : Int := expVal - (fracDs.length : Int)
        some (Json.num isInt m e, cs₃)

/-- Set `key` in an insertion-ordered Python dict: replace in place if
present, append otherwise. -/
def dictSet (d : List (String × Json)) (key : String) (v : Json) :
    List (String × Json) :=
  if d.any (fun p => p.1 = key) then
    d.map (fun p => if p.1 = key then (key, v) else p)
  else d ++ [(key, v)]

/-- `key in d` for a Python dict. -/
def dictHasKey (d : List (String × Json)) (key : String) : Bool :=
  d.any (fun p => p.1 = key)

/-- Python `d.get(key)`: the value, or `None` when absent. -/
def dictGet (d : List (String × Json)) (key : String) : Json :=
  match d.find? (fun p => p.1 = key) with
  | some p => p.2
  | none => Json.null

mutual

/-- Parse one JSON value (Python decoder grammar, including the
default-accepted constants `NaN`, `Infinity`, `-Infinity`). -/
def jValue : Nat → List Char → Option (Json × List Char)
  | 0, _ => none
  | fuel + 1, cs =>
    match cs with
    | [] => none
    | c :: rest =>
      if c = '"' then jString (fuel + 1) rest
        |>.map (fun p => (Json.str p.1, p.2))
      else if c = lbrace then
        match skipWs rest with
        | d :: rest₂ =>
          if d = rbrace then some (Json.obj [], rest₂)
          else jMembers fuel (d :: rest₂) []
        | [] => none
      else if c = '[' then
        match skipWs rest with
        | ']' :: rest₂ => some (Json.arr [], rest₂)
        | rest₂ => jElems fuel rest₂ []
      else if startsList "true".toList cs then some (Json.bool true, cs.drop 4)
      else if startsList "false".toList cs then some (Json.bool false, cs.drop 5)
      else if startsList "null".toList cs then some (Json.null, cs.drop 4)
      else if startsList "NaN".toList cs then some (Json.nan, cs.drop 3)
      else if startsList "Infinity".toList cs then some (Json.inf false, cs.drop 8)
      else if startsList "-Infinity".toList cs then some (Json.inf true, cs.drop 9)
      else if c = '-' ∨ isDigit c then jNumber cs
      else none

/-- Parse the members of a JSON object after `(whitespace)` with at
least one member present; `acc` holds members parsed so far. -/
def jMembers : Nat → List Char → List (String × Json) →
    Option (Json × List Char)
  | 0, _, _ => none
  | fuel + 1, cs, acc =>
    match cs with
    | c :: rest =>
      if c = '"' then
        match jString (fuel + 1) rest with
        | none => none
        | some (key, cs₂) =>
          match skipWs cs₂ with
          | ':' :: cs₃ =>
            match jValue fuel (skipWs cs₃) with
            | none => none
            | some (v, cs₄) =>
              let acc₂ := dictSet acc key v
              match skipWs cs₄ with
              | ',' :: cs₅ => jMembers fuel (skipWs cs₅) acc₂
              | d :: cs₅ =>
                if d = rbrace then some (Json.obj acc₂, cs₅) else none
              | [] => none
          | _ => none
      else none
    | [] => none

/-- Parse the elements of a JSON array after `[` `(whitespace)` with at
least one element present. -/
def jElems : Nat → List Char → List Json → Option (Json × List Char)
  | 0, _, _ => none
  | fuel + 1, cs, acc =>
    match jValue fuel cs with
    | none => none
    | some (v, cs₂) =>
      match skipWs cs₂ with
      | ',' :: cs₃ => jElems fuel (skipWs cs₃) (acc ++ [v])
      | ']' :: cs₃ => some (Json.arr (acc ++ [v]), cs₃)
      | _ => none

end

/-- Python `json.loads`: skip surrounding whitespace, parse one value,
and require the input to be exhausted; `none` models a
`JSONDecodeError`. The fuel bound exceeds any possible recursion depth
(each nested parse consumes at least one character first). -/
def jsonLoads (s : String) : Option Json :=
  let cs := s.toList
  match jValue (2 * cs.length + 8) (skipWs cs) with
  | some (v, rest) => if (skipWs rest).isEmpty then some v else none
  | none => none

/-- Python truthiness of a decoded JSON value (`bool(x)`). -/
def jsonTruthy : Json → Bool
  | Json.null => false
  | Json.bool b => b
  | Json.num _ m _ => m ≠ 0
  | Json.nan => true
  | Json.inf _ => true
  | Json.str s => s ≠ ""
  | Json.arr l => !l.isEmpty
  | Json.obj d => !d.isEmpty

-- ---------------------------------------------------------------------
-- schemas.py: AgentName and ChatContext
-- ---------------------------------------------------------------------

/-- `class AgentName(str, Enum)` from src/app/schemas.py. The enum has
exactly these four members; in particular it has no `RECOMMENDER`
member, although orchestrator.py refers to `AgentName.RECOMMENDER`. -/
inductive AgentName where
  | TOLU
  | EMEM
  | SOLA
  | KEMI
deriving Repr, DecidableEq

/-- A Python exception escaping a modelled function. -/
inductive PyErr where
  | attributeError (name : String)
  | typeError (msg : String)
  | serviceError (msg : String)
deriving Repr, DecidableEq

/-- `ChatContext` from src/app/schemas.py (fields in source order,
with the source's defaults). -/
structure ChatContext where
  task_id : Option String := none
  is_submission : Bool := false
  is_first_login : Bool := false
  user_level : Option String := none
  track : Option String := none
  task_brief : Option String := none
  deadline : Option String := none

-- ---------------------------------------------------------------------
-- orchestrator.py: Orchestrator.determine_agent and _fallback_routing
-- ---------------------------------------------------------------------

/-- The recommendation-letter phrases tested by the third hard rule
(orchestrator.py lines 87-93). -/
def recommendationPhrases : List String :=
  ["recommendation letter",
   "reference letter",
   "referee",
   "12 weeks recommendation",
   "24 weeks recommendation"]

/-- Emotional-support keywords of `_fallback_routing` (note `"scared"`
appears twice, exactly as in the source list). -/
def emotional_keywords : List String :=
  ["worried", "scared", "help", "struggle", "stuck", "confused", "lost",
   "scared", "anxious", "stressed"]

/-- Career keywords of `_fallback_routing`. -/
def career_keywords : List String :=
  ["resume", "cv", "interview", "portfolio", "career", "confidence",
   "skill", "growth", "job"]

/-- Task and project keywords of `_fallback_routing`. -/
def task_keywords : List String :=
  ["deadline", "brief", "task", "project", "client", "deliverable",
   "submit", "due", "when"]

/-- Technical keywords of `_fallback_routing`. -/
def tech_keywords : List String :=
  ["code", "debug", "error", "bug", "function", "variable", "syntax",
   "python", "javascript", "fix"]

/-- HR and admin keywords of `_fallback_routing` (note `"certificate"`
appears twice, exactly as in the source list). -/
def hr_keywords : List String :=
  ["salary", "contract", "policy", "certificate", "certificate",
   "onboarding", "admin", "hours", "leave"]

/-- `sum(1 for k in keywords if k in msg)`: one point per vocabulary
entry whose text occurs in `msg`. -/
def keywordCount (keywords : List String) (msg : String) : Nat :=
  (keywords.filter (fun k => strIn k msg)).length

/-- Python `max(scores, key=scores.get)` over an insertion-ordered
mapping: keep the current best, replace only on a strictly greater
value, so the first key attaining the maximum wins. -/
def pyMaxByVal (first : AgentName × Nat) : List (AgentName × Nat) → AgentName
  | [] => first.1
  | p :: ps => if p.2 > first.2 then pyMaxByVal p ps else pyMaxByVal first ps

/-- `Orchestrator._fallback_routing` (orchestrator.py lines 139-176):
keyword-count scores in dict insertion order KEMI, EMEM, SOLA, TOLU;
`max` over the mapping; all-zero scores default to SOLA. The argument
is the already lower-cased message, as at the call sites. -/
def fallback_routing (msg : String) : AgentName :=
  let emotional_count := keywordCount emotional_keywords msg
  let career_count := keywordCount career_keywords msg
  let task_count := keywordCount task_keywords msg
  let tech_count := keywordCount tech_keywords msg
  let hr_count := keywordCount hr_keywords msg
  let scores : List (AgentName × Nat) :=
    [(AgentName.KEMI, emotional_count + career_count),
     (AgentName.EMEM, task_count),
     (AgentName.SOLA, tech_count),
     (AgentName.TOLU, hr_count)]
  let best_agent := pyMaxByVal (AgentName.KEMI, emotional_count + career_count)
    (scores.drop 1)
  if scores.all (fun p => p.2 = 0) then AgentName.SOLA
  else best_agent

/-- The hard-rule stage of `determine_agent` (orchestrator.py lines
80-94), evaluated before the try block. `none` means no rule fired and
control reaches the AI-powered stage. The third rule executes
`return AgentName.RECOMMENDER`; since the `AgentName` enum in
schemas.py has no member of that name, the attribute access raises an
`AttributeError`, modelled as `Except.error`. -/
def hardRules (message : String) (context : ChatContext) :
    Option (Except PyErr AgentName) :=
  let msg := pyLower message
  if context.is_submission then some (Except.ok AgentName.SOLA)
  else if context.is_first_login then some (Except.ok AgentName.TOLU)
  else if recommendationPhrases.any (fun k => strIn k msg) then
    some (Except.error (PyErr.attributeError "RECOMMENDER"))
  else none

/-- The token-to-agent table of the AI-powered stage
(orchestrator.py lines 119-124). -/
def agent_map (token : String) : Option AgentName :=
  if token = "Tolu" then some AgentName.TOLU
  else if token = "Emem" then some AgentName.EMEM
  else if token = "Sola" then some AgentName.SOLA
  else if token = "Kemi" then some AgentName.KEMI
  else none

/-- The AI-powered stage of `determine_agent` (orchestrator.py lines
96-137). `model` is the outcome of the single
`generate_content_async` call: `Except.error` when the call (or
reading its text) raises, `Except.ok t` when it returns text `t`. The
surrounding `try/except Exception` catches every failure and falls
back to `_fallback_routing`; an unrecognized token does the same. The
context only feeds the prompt, never the result. -/
def aiDetectStage (message : String) (_context : ChatContext)
    (model : Except String String) : AgentName :=
  let msg := pyLower message
  match model with
  | Except.error _ => fallback_routing msg
  | Except.ok t =>
    let agent_raw := pyTitle (pyStrip t)
    match agent_map agent_raw with
    | some detected => detected
    | none => fallback_routing msg

/-- `Orchestrator.determine_agent` (orchestrator.py lines 77-137):
hard rules first; only when none fires is the model consulted. -/
def determine_agent (message : String) (context : ChatContext)
    (model : Except String String) : Except PyErr AgentName :=
  match hardRules message context with
  | some r => r
  | none => Except.ok (aiDetectStage message context model)

-- ---------------------------------------------------------------------
-- agents/sola.py: review_submission response parsing
-- ---------------------------------------------------------------------

/-- Split off the maximal run of non-brace characters
(the regex piece written as a character class excluding braces). -/
def takeNonBrace (cs : List Char) : List Char × List Char :=
  (cs.takeWhile (fun c => c ≠ lbrace && c ≠ rbrace),
   cs.dropWhile (fun c => c ≠ lbrace && c ≠ rbrace))

/-- Continue the object regex of sola.py line 101 after the opening
brace and first non-brace run: zero or more groups of
brace-open, non-braces, brace-close, non-braces, then the final
closing brace. Since the character classes exclude braces, the
backtracking regex engine behaves deterministically here. Returns the
characters consumed and the remainder. -/
def regexTail : Nat → List Char → Option (List Char × List Char)
  | 0, _ => none
  | _, [] => none
  | fuel + 1, c :: rest =>
    if c = rbrace then some ([c], rest)
    else if c = lbrace then
      let (b, r₁) := takeNonBrace rest
      match r₁ with
      | d :: r₂ =>
        if d = rbrace then
          let (b₂, r₃) := takeNonBrace r₂
          match regexTail fuel r₃ with
          | some (m, rest') => some (c :: (b ++ [d] ++ b₂ ++ m), rest')
          | none => none
        else none
      | [] => none
    else none

/-- Attempt the object regex anchored at the head of `cs`. -/
def regexMatchAt (cs : List Char) : Option (List Char) :=
  match cs with
  | c :: rest =>
    if c = lbrace then
      let (a, r₁) := takeNonBrace rest
      match regexTail (cs.length + 1) r₁ with
      | some (m, _) => some (c :: (a ++ m))
      | none => none
    else none
  | [] => none

/-- `re.search` of the object regex: the match at the leftmost
position where one succeeds. -/
def searchJsonObj : List Char → Option (List Char)
  | [] => none
  | c :: cs =>
    match regexMatchAt (c :: cs) with
    | some m => some m
    | none => searchJsonObj cs

/-- Fence stripping of sola.py lines 89-97: when the stripped text
starts with a code fence, drop its first line and a trailing closing
fence. -/
def stripFenceLines (text : String) : String :=
  if strStarts "```" text then
    let lines := splitOnChar '\n' text
    if lines.length > 1 then
      let text₂ := joinWithChar '\n' (lines.drop 1)
      if strEnds "```" text₂ then strDropRight text₂ 3 else text₂
    else text
  else text

/-- The validity test of sola.py lines 108 and 116: a dict containing
both required keys. -/
def validReviewDict : Json → Option (List (String × Json))
  | Json.obj d =>
    if dictHasKey d "feedback" && dictHasKey d "passed" then some d
    else none
  | _ => none

/-- sola.py lines 110-111 and 117-118: fill a missing `"score"` with
50. -/
def fillScore (d : List (String × Json)) : List (String × Json) :=
  if dictHasKey d "score" then d else dictSet d "score" (Json.num true 50 0)

/-- The fallback dict of sola.py lines 125-130 (`response` is bound in
this path, so its `feedback` is the raw response text). -/
def reviewFallback (rawText : String) : List (String × Json) :=
  [("feedback", Json.str rawText),
   ("passed", Json.bool false),
   ("score", Json.num true 0 0),
   ("improvement_points",
    Json.arr [Json.str "Please ensure submission is clear and complete",
              Json.str "Resubmit for review"])]

/-- The response-processing stage of `sola.review_submission`
(sola.py lines 86-130), given the text of a successful model call:
strip, unfence, regex-extract an object and decode it; if that decode
raises, the except clause jumps straight to the fallback; if it yields
something without the required keys, decode the whole text; any
remaining failure lands on the fallback dict. -/
def review_submission_parse (rawText : String) : List (String × Json) :=
  let text := pyStrip rawText
  let text := stripFenceLines text
  let secondAttempt : List (String × Json) :=
    match jsonLoads text with
    | some j =>
      match validReviewDict j with
      | some d => fillScore d
      | none => reviewFallback rawText
    | none => reviewFallback rawText
  match searchJsonObj text.toList with
  | some m =>
    match jsonLoads (String.mk m) with
    | some j =>
      match validReviewDict j with
      | some d => fillScore d
      | none => secondAttempt
    | none => reviewFallback rawText
  | none => secondAttempt

-- ---------------------------------------------------------------------
-- agents/kemi.py: translate_to_cv_bullet response parsing
-- ---------------------------------------------------------------------

/-- The response-processing stage of `kemi.translate_to_cv_bullet`
(kemi.py lines 54-68): strip fences, decode, and on a decode error
return the generic skill-tag dict built from the task title. -/
def translate_parse (task_title : String) (rawText : String) : Json :=
  let text := pyStrip rawText
  let text := if strStarts "```json" text then strDrop text 7 else text
  let text := if strStarts "```" text then strDrop text 3 else text
  let text := if strEnds "```" text then strDropRight text 3 else text
  match jsonLoads (pyStrip text) with
  | some j => j
  | none =>
    Json.obj [("skill_tag", Json.str "General"),
              ("bullet_point",
               Json.str ("Successfully completed: " ++ task_title))]

-- ---------------------------------------------------------------------
-- orchestrator.py: Orchestrator.review_submission (compound operation)
-- ---------------------------------------------------------------------

/-- The model calls the compound review operation can issue, in the
order they are awaited. -/
inductive ModelCallTag where
  | reviewCall
  | translateCall
deriving Repr, DecidableEq

/-- `Orchestrator.review_submission` (orchestrator.py lines 240-264)
with an explicit sequential trace of model calls: await the review,
and only when `review.get("passed")` is truthy await the translation
and store it under `"portfolio_bullet"`. `reviewText` and
`translateText` are the texts the model service would return for the
first and (if issued) second call. -/
def orchestrator_review_submission (task_title : String)
    (reviewText : String) (translateText : String) :
    List (String × Json) × List ModelCallTag :=
  let review := review_submission_parse reviewText
  if jsonTruthy (dictGet review "passed") then
    let bullet := translate_parse task_title translateText
    (dictSet review "portfolio_bullet" bullet,
     [ModelCallTag.reviewCall, ModelCallTag.translateCall])
  else
    (review, [ModelCallTag.reviewCall])

-- ---------------------------------------------------------------------
-- intent_classifier.py: classify_intent
-- ---------------------------------------------------------------------

/-- The `INTENTS` table of intent_classifier.py. -/
def INTENTS : List (String × String) :=
  [("hr_onboarding", "tolu"),
   ("project_manager", "emem"),
   ("supervisor", "sola"),
   ("career_strategist", "kemi")]

/-- `classify_intent` (intent_classifier.py lines 42-65). The model
call itself sits outside the try block, so a service failure
propagates; the try catches only `json.JSONDecodeError`, so a decoded
non-dict raises `AttributeError` on `.get`, and an unhashable decoded
intent raises `TypeError` on the `in` test; a missing, null, numeric
or boolean intent and an unrecognized string both fall through to the
hard fallback `"hr_onboarding"`. -/
def classify_intent (model : Except String String) : Except PyErr String :=
  match model with
  | Except.error e => Except.error (PyErr.serviceError e)
  | Except.ok t =>
    let raw := pyStrip t
    match jsonLoads raw with
    | none => Except.ok "hr_onboarding"
    | some (Json.obj d) =>
      match dictGet d "intent" with
      | Json.str s =>
        if (INTENTS.lookup s).isSome then Except.ok s
        else Except.ok "hr_onboarding"
      | Json.arr _ => Except.error (PyErr.typeError "unhashable type")
      | Json.obj _ => Except.error (PyErr.typeError "unhashable type")
      | _ => Except.ok "hr_onboarding"
    | some _ => Except.error (PyErr.attributeError "get")

-- ---------------------------------------------------------------------
-- Spec-side definition for the refinement reading of the fallback
-- scorer (claim about occurrence counting)
-- ---------------------------------------------------------------------

/-- Modelled from the spec: score a vocabulary by counting every
occurrence of every vocabulary word in the message, so that a word
appearing multiple times contributes once per occurrence. Stated from
the spec's words for comparison with `keywordCount`, which is the
code's scorer. -/
def specOccurrenceScore (keywords : List String) (msg : String) : Nat :=
  (keywords.map (fun k => occCount k.toList msg.toList)).sum

/-- A text decodes to a valid review dict: `json.loads` succeeds and
the result is a dict with the two required keys. -/
def decodesToValidReview (s : String) : Bool :=
  match jsonLoads s with
  | some j => (validReviewDict j).isSome
  | none => false

/-- The regex-extracted candidate of the review parse decodes to a
valid review dict (false also when the regex finds no object). -/
def regexCandidateValid (text : String) : Bool :=
  match searchJsonObj text.toList with
  | some m => decodesToValidReview (String.mk m)
  | none => false

-- ---------------------------------------------------------------------
-- Theorems
-- ---------------------------------------------------------------------

/-- C1: for every message and every context with the submission flag
set, `determine_agent` resolves to SOLA in its hard-rule stage,
whatever the model service would do and whatever the message says:
deterministic rule 1 outranks the recommendation-letter rule and the
AI classifier. -/
theorem submission_flag_always_routes_to_sola
    (message : String) (context : ChatContext)
    (model : Except String String) (h : context.is_submission = true) :
    determine_agent message context model = Except.ok AgentName.SOLA := by
  simp [determine_agent, hardRules, h]

/-- Witness for C1: the empty message and a message full of
recommendation-letter and distress keywords, under a submission
context, with both a failing and an answering model. -/
theorem submission_flag_always_routes_to_sola_witness :
    determine_agent "" { is_submission := true } (Except.error "timeout")
      = Except.ok AgentName.SOLA ∧
    determine_agent
      "I am worried, I need a recommendation letter and a reference letter"
      { is_submission := true, is_first_login := true } (Except.ok "Kemi")
      = Except.ok AgentName.SOLA :=
  ⟨submission_flag_always_routes_to_sola _ _ _ rfl,
   submission_flag_always_routes_to_sola _ _ _ rfl⟩

/-- C2: on the recommendation-letter message with both flags clear,
the hard-rule stage executes `return AgentName.RECOMMENDER`; the
`AgentName` enum of schemas.py has no such member, so the attribute
access raises an `AttributeError` before any model call — the router
does not return a recommendation agent. -/
theorem recommendation_rule_hits_missing_enum_member
    (model : Except String String) :
    determine_agent "I need a recommendation letter for my 12 weeks"
      {} model
      = Except.error (PyErr.attributeError "RECOMMENDER") := by
  rfl

/-- C3: the AI-powered stage is total: a raised model exception and an
unrecognized answer token both delegate to `_fallback_routing` on the
lower-cased message, and for every behaviour of the model the stage
returns one of the four known agent identities, never propagating an
exception. -/
theorem ai_stage_total_with_fallback
    (message : String) (context : ChatContext)
    (model : Except String String) :
    (∀ e, aiDetectStage message context (Except.error e)
        = fallback_routing (pyLower message)) ∧
    (∀ t, agent_map (pyTitle (pyStrip t)) = none →
        aiDetectStage message context (Except.ok t)
        = fallback_routing (pyLower message)) ∧
    (aiDetectStage message context model = AgentName.TOLU ∨
     aiDetectStage message context model = AgentName.EMEM ∨
     aiDetectStage message context model = AgentName.SOLA ∨
     aiDetectStage message context model = AgentName.KEMI) := by
  refine ⟨fun e => rfl, fun t h => ?_, ?_⟩
  · simp [aiDetectStage, h]
  · cases h : aiDetectStage message context model <;> simp

/-- Witness for C3: a timeout-style exception and an out-of-vocabulary
answer both fall back, on a concrete message. -/
theorem ai_stage_total_with_fallback_witness :
    aiDetectStage "please review my code" {} (Except.error "DeadlineExceeded")
      = fallback_routing (pyLower "please review my code") ∧
    aiDetectStage "please review my code" {} (Except.ok "I think Sola fits best")
      = fallback_routing (pyLower "please review my code") :=
  ⟨(ai_stage_total_with_fallback "please review my code" {}
      (Except.error "DeadlineExceeded")).1 "DeadlineExceeded",
   (ai_stage_total_with_fallback "please review my code" {}
      (Except.ok "I think Sola fits best")).2.1 "I think Sola fits best" rfl⟩

/-- C7: when every vocabulary scores zero on the message, the fallback
classifier returns SOLA as the default. -/
theorem fallback_zero_scores_default_sola (msg : String)
    (h₁ : keywordCount emotional_keywords msg + keywordCount career_keywords msg = 0)
    (h₂ : keywordCount task_keywords msg = 0)
    (h₃ : keywordCount tech_keywords msg = 0)
    (h₄ : keywordCount hr_keywords msg = 0) :
    fallback_routing msg = AgentName.SOLA := by
  simp [fallback_routing, h₁, h₂, h₃, h₄]

/-- Witness for C7: the message `"ok"` matches no vocabulary word and
lands on the SOLA default. -/
theorem fallback_zero_scores_default_sola_witness :
    fallback_routing "ok" = AgentName.SOLA :=
  fallback_zero_scores_default_sola "ok" (by decide) (by decide) (by decide)
    (by decide)

/-- C4: whenever neither the regex-extracted candidate nor the whole
unfenced text decodes to a dict with the required keys, the review
parse lands on the fail-closed fallback: passed false, score 0, and a
non-empty improvement-points list; being a total function, it raises
nothing. -/
theorem review_parse_fail_closed (rawText : String)
    (h₁ : regexCandidateValid (stripFenceLines (pyStrip rawText)) = false)
    (h₂ : decodesToValidReview (stripFenceLines (pyStrip rawText)) = false) :
    review_submission_parse rawText = reviewFallback rawText ∧
    dictGet (review_submission_parse rawText) "passed" = Json.bool false ∧
    dictGet (review_submission_parse rawText) "score" = Json.num true 0 0 ∧
    dictGet (review_submission_parse rawText) "improvement_points"
      = Json.arr [Json.str "Please ensure submission is clear and complete",
                  Json.str "Resubmit for review"] := by
  have hmain : review_submission_parse rawText = reviewFallback rawText := by
    unfold regexCandidateValid at h₁
    unfold decodesToValidReview at h₁ h₂
    simp only [review_submission_parse]
    cases hs : searchJsonObj (stripFenceLines (pyStrip rawText)).toList with
    | none =>
      cases hj : jsonLoads (stripFenceLines (pyStrip rawText)) with
      | none => rfl
      | some j =>
        rw [hj] at h₂
        cases hv : validReviewDict j with
        | none => simp [hv]
        | some d => simp [hv] at h₂
    | some m =>
      rw [hs] at h₁
      cases hm : jsonLoads (String.mk m) with
      | none => simp [hm]
      | some j =>
        cases hv : validReviewDict j with
        | none =>
          cases hj : jsonLoads (stripFenceLines (pyStrip rawText)) with
          | none => simp [hm, hv]
          | some j' =>
            rw [hj] at h₂
            cases hv' : validReviewDict j' with
            | none => simp [hm, hv, hv']
            | some d => simp [hv'] at h₂
        | some d => simp [hm, hv] at h₁
  refine ⟨hmain, ?_, ?_, ?_⟩ <;> rw [hmain] <;> rfl

/-- Witness for C4: the malformed model answer
`"Sorry, I can't process this."` yields the fail-closed default. -/
theorem review_parse_fail_closed_witness :
    review_submission_parse "Sorry, I can't process this."
      = reviewFallback "Sorry, I can't process this." ∧
    dictGet (review_submission_parse "Sorry, I can't process this.") "passed"
      = Json.bool false ∧
    dictGet (review_submission_parse "Sorry, I can't process this.") "score"
      = Json.num true 0 0 ∧
    dictGet (review_submission_parse "Sorry, I can't process this.")
        "improvement_points"
      = Json.arr [Json.str "Please ensure submission is clear and complete",
                  Json.str "Resubmit for review"] :=
  review_parse_fail_closed "Sorry, I can't process this." rfl rfl

/-- C5 counterexample: on the message `"bug bug"` the code's technical
score is 1 — the vocabulary entry `"bug"` contributes once for
presence — while the occurrence-counting score the claim describes
would be 2. -/
theorem fallback_score_counterexample :
    keywordCount tech_keywords "bug bug" = 1 ∧
    specOccurrenceScore tech_keywords "bug bug" = 2 ∧
    keywordCount tech_keywords "bug bug"
      ≠ specOccurrenceScore tech_keywords "bug bug" := by
  decide

/-- C5 amended: each category's score gives one point per vocabulary
entry whose text occurs in the message at all, so the score depends
only on which entries are present — never on how often they occur —
and is bounded by the length of the vocabulary list (duplicated
entries such as `"scared"` and `"certificate"` can thus count
twice). -/
theorem fallback_score_is_presence_count (ks : List String)
    (msg msg' : String) (h : ∀ k ∈ ks, strIn k msg = strIn k msg') :
    keywordCount ks msg = keywordCount ks msg' ∧
    keywordCount ks msg ≤ ks.length := by
  constructor
  · unfold keywordCount
    rw [List.filter_congr h]
  · exact List.length_filter_le _ _

/-- Witness for C5 amended: `"bug bug"` and `"bug"` present the same
entries, hence score equally. -/
theorem fallback_score_is_presence_count_witness :
    keywordCount tech_keywords "bug bug" = keywordCount tech_keywords "bug" ∧
    keywordCount tech_keywords "bug bug" ≤ tech_keywords.length :=
  fallback_score_is_presence_count tech_keywords "bug bug" "bug" (by decide)

/-- C6 counterexample: on `"help fix"` the emotional-plus-career score
and the technical score tie at the maximum 1 > 0, and the router
returns KEMI — not the SOLA that the claimed preference order
TechnicalReviewer, ProjectManager, Onboarding, CareerCoach demands. -/
theorem fallback_tie_counterexample :
    keywordCount emotional_keywords "help fix"
        + keywordCount career_keywords "help fix" = 1 ∧
    keywordCount task_keywords "help fix" = 0 ∧
    keywordCount tech_keywords "help fix" = 1 ∧
    keywordCount hr_keywords "help fix" = 0 ∧
    fallback_routing "help fix" = AgentName.KEMI ∧
    fallback_routing "help fix" ≠ AgentName.SOLA := by
  decide

/-- C6 amended: ties are broken by the dict insertion order KEMI
(CareerCoach), EMEM (ProjectManager), SOLA (TechnicalReviewer), TOLU
(Onboarding): Python `max` keeps the first key attaining the maximum.
With scores a (emotional + career), b (task), c (tech), d (hr), and
not all zero, the winner is exactly characterized below; all-zero
scores default to SOLA. -/
theorem fallback_tie_break_insertion_order (msg : String) (a b c d : Nat)
    (ha : keywordCount emotional_keywords msg
        + keywordCount career_keywords msg = a)
    (hb : keywordCount task_keywords msg = b)
    (hc : keywordCount tech_keywords msg = c)
    (hd : keywordCount hr_keywords msg = d) :
    (a = 0 ∧ b = 0 ∧ c = 0 ∧ d = 0 → fallback_routing msg = AgentName.SOLA) ∧
    (¬(a = 0 ∧ b = 0 ∧ c = 0 ∧ d = 0) →
      ((fallback_routing msg = AgentName.KEMI ↔ b ≤ a ∧ c ≤ a ∧ d ≤ a) ∧
       (fallback_routing msg = AgentName.EMEM ↔ a < b ∧ c ≤ b ∧ d ≤ b) ∧
       (fallback_routing msg = AgentName.SOLA ↔ a < c ∧ b < c ∧ d ≤ c) ∧
       (fallback_routing msg = AgentName.TOLU ↔ a < d ∧ b < d ∧ c < d))) := by
  simp only [fallback_routing, List.drop_succ_cons, List.drop_zero,
    List.all_cons, List.all_nil, pyMaxByVal]
  rw [ha, hb, hc, hd]
  split_ifs <;> simp_all <;> omega

/-- Witness for C6 amended: on `"help fix"` (scores 1, 0, 1, 0) the
characterization picks KEMI. -/
theorem fallback_tie_break_insertion_order_witness :
    fallback_routing "help fix" = AgentName.KEMI :=
  ((fallback_tie_break_insertion_order "help fix" 1 0 1 0 (by decide)
      (by decide) (by decide) (by decide)).2 (by simp)).1.mpr (by simp)

/-- C8: the fenced review answer round-trips to the decoded mapping
with passed true, score 85, feedback "Good"; and in general, when the
regex-extracted candidate decodes to a mapping with the required keys
but no `"score"`, the parse returns that mapping with `"score"`
appended as 50. -/
theorem structured_parse_round_trip :
    review_submission_parse
        "```json\n\x7b\"passed\": true, \"score\": 85, \"feedback\": \"Good\"\x7d\n```"
      = [("passed", Json.bool true), ("score", Json.num true 85 0),
         ("feedback", Json.str "Good")] ∧
    (∀ (rawText : String) (m : List Char) (d : List (String × Json)),
      searchJsonObj (stripFenceLines (pyStrip rawText)).toList = some m →
      jsonLoads (String.mk m) = some (Json.obj d) →
      dictHasKey d "feedback" = true →
      dictHasKey d "passed" = true →
      dictHasKey d "score" = false →
      review_submission_parse rawText
        = d ++ [("score", Json.num true 50 0)]) := by
  constructor
  · rfl
  · intro rawText m d hsearch hload hfb hp hsc
    have hsc' : d.any (fun p => p.1 = "score") = false := hsc
    simp only [review_submission_parse]
    rw [hsearch]
    simp [hload, validReviewDict, hfb, hp, fillScore, hsc, dictSet, hsc']

/-- Witness for C8's general part: a review mapping with the required
keys and no score gets 50 appended. -/
theorem structured_parse_round_trip_witness :
    review_submission_parse "\x7b\"passed\": true, \"feedback\": \"ok\"\x7d"
      = [("passed", Json.bool true), ("feedback", Json.str "ok")]
          ++ [("score", Json.num true 50 0)] :=
  structured_parse_round_trip.2 "\x7b\"passed\": true, \"feedback\": \"ok\"\x7d"
    ("\x7b\"passed\": true, \"feedback\": \"ok\"\x7d".toList)
    [("passed", Json.bool true), ("feedback", Json.str "ok")]
    rfl rfl rfl rfl rfl

/-- C9 counterexample: a failure of the model-service call itself is
outside the try block of `classify_intent`, so it propagates instead
of producing the hard fallback the claim promises. -/
theorem intent_service_failure_propagates :
    classify_intent (Except.error "ReadTimeout")
      = Except.error (PyErr.serviceError "ReadTimeout") ∧
    classify_intent (Except.error "ReadTimeout")
      ≠ Except.ok "hr_onboarding" :=
  ⟨rfl, by simp [classify_intent]⟩

/-- C9 amended: `classify_intent` returns the `"hr_onboarding"`
default when the answer is not valid JSON, and when the answer decodes
to a JSON object whose intent entry is absent or is a string outside
the four recognized intents; a failure of the model-service call
itself propagates to the caller. -/
theorem intent_fallback_scope (t e s : String) (d : List (String × Json)) :
    (jsonLoads (pyStrip t) = none →
      classify_intent (Except.ok t) = Except.ok "hr_onboarding") ∧
    (jsonLoads (pyStrip t) = some (Json.obj d) →
      dictGet d "intent" = Json.null →
      classify_intent (Except.ok t) = Except.ok "hr_onboarding") ∧
    (jsonLoads (pyStrip t) = some (Json.obj d) →
      dictGet d "intent" = Json.str s →
      INTENTS.lookup s = none →
      classify_intent (Except.ok t) = Except.ok "hr_onboarding") ∧
    classify_intent (Except.error e)
      = Except.error (PyErr.serviceError e) := by
  refine ⟨fun h => by simp [classify_intent, h],
          fun h hi => by simp [classify_intent, h, hi],
          fun h hi hl => by simp [classify_intent, h, hi, hl],
          rfl⟩

/-- Witness for C9 amended: invalid JSON, a JSON object without an
intent, an unrecognized intent string, and a raising service. -/
theorem intent_fallback_scope_witness :
    classify_intent (Except.ok "no json here") = Except.ok "hr_onboarding" ∧
    classify_intent (Except.ok "\x7b\"confidence\": 1\x7d")
      = Except.ok "hr_onboarding" ∧
    classify_intent (Except.ok "\x7b\"intent\": \"ceo\"\x7d")
      = Except.ok "hr_onboarding" ∧
    classify_intent (Except.error "boom")
      = Except.error (PyErr.serviceError "boom") :=
  ⟨(intent_fallback_scope "no json here" "boom" "x" []).1 rfl,
   (intent_fallback_scope "\x7b\"confidence\": 1\x7d" "boom" "x"
      [("confidence", Json.num true 1 0)]).2.1 rfl rfl,
   (intent_fallback_scope "\x7b\"intent\": \"ceo\"\x7d" "boom" "ceo"
      [("intent", Json.str "ceo")]).2.2.1 rfl rfl rfl,
   (intent_fallback_scope "x" "boom" "x" []).2.2.2⟩

/-- C10 counterexample: when the review's own JSON carries a
`"portfolio_bullet"` entry and `passed` is false, the orchestrator
returns the review with that entry present even though the second
model call was never issued — the claim's "returned without a
portfolio_bullet entry" fails on this input. -/
theorem review_passthrough_keeps_model_supplied_bullet :
    jsonTruthy (dictGet (review_submission_parse
        "\x7b\"feedback\": \"f\", \"passed\": false, \"portfolio_bullet\": \"x\"\x7d")
        "passed") = false ∧
    (orchestrator_review_submission "Task"
        "\x7b\"feedback\": \"f\", \"passed\": false, \"portfolio_bullet\": \"x\"\x7d"
        "unused").2 = [ModelCallTag.reviewCall] ∧
    dictHasKey (orchestrator_review_submission "Task"
        "\x7b\"feedback\": \"f\", \"passed\": false, \"portfolio_bullet\": \"x\"\x7d"
        "unused").1 "portfolio_bullet" = true :=
  ⟨rfl, rfl, rfl⟩

/-- C10 amended: the translation call is issued if and only if the
completed review's `passed` is truthy; when it is not, the review dict
is returned unchanged (so it carries a portfolio bullet only if the
review JSON itself supplied one); and the trace is always the review
call alone or the review call strictly followed by the translation
call — never concurrent. -/
theorem review_then_translate_conditional
    (task_title reviewText translateText : String) :
    (ModelCallTag.translateCall ∈
        (orchestrator_review_submission task_title reviewText translateText).2
      ↔ jsonTruthy (dictGet (review_submission_parse reviewText) "passed")
          = true) ∧
    (jsonTruthy (dictGet (review_submission_parse reviewText) "passed")
        = false →
      (orchestrator_review_submission task_title reviewText translateText).1
        = review_submission_parse reviewText) ∧
    ((orchestrator_review_submission task_title reviewText translateText).2
        = [ModelCallTag.reviewCall] ∨
     (orchestrator_review_submission task_title reviewText translateText).2
        = [ModelCallTag.reviewCall, ModelCallTag.translateCall]) := by
  unfold orchestrator_review_submission
  cases h : jsonTruthy (dictGet (review_submission_parse reviewText) "passed") <;>
    simp [h]

/-- Witness for C10 amended: a failing review is returned unchanged,
and a passing review issues the translation call. -/
theorem review_then_translate_conditional_witness :
    (orchestrator_review_submission "T"
        "\x7b\"feedback\": \"f\", \"passed\": false\x7d" "u").1
      = review_submission_parse "\x7b\"feedback\": \"f\", \"passed\": false\x7d" ∧
    ModelCallTag.translateCall ∈
      (orchestrator_review_submission "T"
        "\x7b\"feedback\": \"f\", \"passed\": true\x7d" "u").2 :=
  ⟨(review_then_translate_conditional "T"
      "\x7b\"feedback\": \"f\", \"passed\": false\x7d" "u").2.1 rfl,
   (review_then_translate_conditional "T"
      "\x7b\"feedback\": \"f\", \"passed\": true\x7d" "u").1.mpr rfl⟩

end WDC
